import Mathlib

/-!
Verification of the BugRelay MCP server core (docs/mcp/server.py and
docs/mcp/config.py): a shallow embedding of the tool-dispatch and
request-forwarding engine, followed by theorems about the dispatch table,
the authentication-header policy, and the error-normalization contract.

Modelling conventions:
* JSON values are the inductive `Json` below, with numbers as integers.
* Python dicts are association lists with distinct keys; `dictGet` models
  `d.get(k)` and `pyGetItem` models `d[k]` (whose failure is a `KeyError`
  rendered by `str` as the quoted key).
* The HTTP client is a function from requests to outcomes (`Backend`); the
  server state records the base URL, the static API key, and the trace of
  wire requests issued through the client, in order.
* Exceptions are `Except String`: every exception in this code is consumed
  via `str(e)`, so the message string is the whole observable content.
-/

/-- JSON values as produced by parsing response bodies and as held in
argument mappings. Numbers are modelled as integers. -/
inductive Json where
  | null
  | bool (b : Bool)
  | num (n : Int)
  | str (s : String)
  | arr (xs : List Json)
  | obj (kvs : List (String × Json))
deriving Inhabited

/-- A Python dict of JSON values: an association list with distinct keys. -/
abbrev ArgMap := List (String × Json)

/-- Models `d.get(k)`: the first binding of the key, if any. -/
def dictGet : ArgMap → String → Option Json
  | [], _ => none
  | (k, v) :: rest, key => if k = key then some v else dictGet rest key

/-- A single ASCII apostrophe, used by Python `repr` of strings and by the
rendering of a `KeyError`. -/
def pyQuote : String := String.singleton (Char.ofNat 39)

/-- Models `d[k]`: the bound value, or the `KeyError` whose `str` is the
missing key wrapped in apostrophes. -/
def pyGetItem (args : ArgMap) (key : String) : Except String Json :=
  match dictGet args key with
  | some v => Except.ok v
  | none => Except.error (pyQuote ++ key ++ pyQuote)

mutual
/-- Models Python `repr` of a parsed-JSON value. -/
def pyRepr : Json → String
  | Json.null => "None"
  | Json.bool true => "True"
  | Json.bool false => "False"
  | Json.num n => toString n
  | Json.str s => pyQuote ++ s ++ pyQuote
  | Json.arr xs => "[" ++ pyReprItems xs ++ "]"
  | Json.obj kvs => "\x7b" ++ pyReprPairs kvs ++ "\x7d"

/-- Comma-separated `repr` of list elements. -/
def pyReprItems : List Json → String
  | [] => ""
  | [j] => pyRepr j
  | j :: j2 :: rest => pyRepr j ++ ", " ++ pyReprItems (j2 :: rest)

/-- Comma-separated `repr` of dict entries. -/
def pyReprPairs : List (String × Json) → String
  | [] => ""
  | [(k, v)] => pyQuote ++ k ++ pyQuote ++ ": " ++ pyRepr v
  | (k, v) :: kv2 :: rest =>
      pyQuote ++ k ++ pyQuote ++ ": " ++ pyRepr v ++ ", " ++ pyReprPairs (kv2 :: rest)
end

/-- Models Python `str` of a parsed-JSON value, as interpolated by
f-strings: a string passes through unquoted, everything else as `repr`. -/
def pyStr : Json → String
  | Json.str s => s
  | j => pyRepr j

/-- Indentation emitted by `json.dumps(..., indent=2)` at a nesting level. -/
def jsonIndent (lvl : Nat) : String := String.mk (List.replicate (2 * lvl) ' ')

/-- Escaping of one character inside a JSON string literal (the ASCII subset
this server exchanges). -/
def jsonEscapeChar (c : Char) : String :=
  if c = '"' then "\\\""
  else if c = '\\' then "\\\\"
  else if c = '\n' then "\\n"
  else if c = '\t' then "\\t"
  else if c = '\r' then "\\r"
  else String.singleton c

/-- A JSON string literal with its surrounding double quotes. -/
def jsonQuote (s : String) : String :=
  "\"" ++ s.data.foldl (fun acc c => acc ++ jsonEscapeChar c) "" ++ "\""

mutual
/-- Models `json.dumps(value, indent=2)` at a given nesting level. -/
def dumpsVal : Json → Nat → String
  | Json.null, _ => "null"
  | Json.bool true, _ => "true"
  | Json.bool false, _ => "false"
  | Json.num n, _ => toString n
  | Json.str s, _ => jsonQuote s
  | Json.arr [], _ => "[]"
  | Json.arr (j :: rest), lvl =>
      "[\n" ++ dumpsItems (j :: rest) (lvl + 1) ++ "\n" ++ jsonIndent lvl ++ "]"
  | Json.obj [], _ => "\x7b\x7d"
  | Json.obj (kv :: rest), lvl =>
      "\x7b\n" ++ dumpsPairs (kv :: rest) (lvl + 1) ++ "\n" ++ jsonIndent lvl ++ "\x7d"

/-- List elements of `json.dumps`, one per line. -/
def dumpsItems : List Json → Nat → String
  | [], _ => ""
  | [j], lvl => jsonIndent lvl ++ dumpsVal j lvl
  | j :: j2 :: rest, lvl =>
      jsonIndent lvl ++ dumpsVal j lvl ++ ",\n" ++ dumpsItems (j2 :: rest) lvl

/-- Object entries of `json.dumps`, one per line. -/
def dumpsPairs : List (String × Json) → Nat → String
  | [], _ => ""
  | [(k, v)], lvl => jsonIndent lvl ++ jsonQuote k ++ ": " ++ dumpsVal v lvl
  | (k, v) :: kv2 :: rest, lvl =>
      jsonIndent lvl ++ jsonQuote k ++ ": " ++ dumpsVal v lvl ++ ",\n" ++
        dumpsPairs (kv2 :: rest) lvl
end

/-- Models `json.dumps(result, indent=2)` as used in `handle_call_tool`. -/
def json_dumps (j : Json) : String := dumpsVal j 0

/-- An outbound wire request as handed to `self.client.request`. -/
structure HttpRequest where
  method : String
  url : String
  jsonBody : Option ArgMap
  params : Option ArgMap
  headers : List (String × String)

/-- A backend HTTP response: status code, the result of `.json()` (an error
carries the decode-failure text), and the raw `.text` body. -/
structure HttpResponse where
  status : Nat
  jsonBody : Except String Json
  text : String

/-- Outcome of one wire attempt: a response, or a transport-level failure
(connection error, timeout) whose description is `str` of the exception. -/
inductive HttpOutcome where
  | response (resp : HttpResponse)
  | transportFail (desc : String)

/-- The backend as seen through the HTTP client. -/
abbrev Backend := HttpRequest → HttpOutcome

/-- Server object state: `base_url` and `api_key` from `__init__`, plus the
trace of wire requests issued so far (the observable network activity). -/
structure ServerState where
  base_url : String
  api_key : Option String
  trace : List HttpRequest

/-- Models `s.lstrip(z)` for the slash character. -/
def lstripSlash (s : String) : String :=
  String.mk (s.data.dropWhile (fun c => c == '/'))

/-- Models `s.rstrip(z)` for the slash character. -/
def rstripSlash (s : String) : String :=
  String.mk ((s.data.reverse.dropWhile (fun c => c == '/')).reverse)

/-- Models `BugRelayMCPServer.__init__`: the base URL loses trailing
slashes, the API key is stored, no request has been issued. -/
def serverInit (base_url : String) (api_key : Option String) : ServerState :=
  { base_url := rstripSlash base_url, api_key := api_key, trace := [] }

/-- Models `urllib.parse.urljoin` for the shape of every call this server
makes: the base ends with a slash and the endpoint is a relative path, so
resolution concatenates them. -/
def urljoin (base rel : String) : String := base ++ rel

/-- Python truthiness of an optional string: present and non-empty. -/
def optTruthy : Option String → Bool
  | none => false
  | some s => !s.data.isEmpty

/-- First binding of a header name in a header list. -/
def lookupHeader : List (String × String) → String → Option String
  | [], _ => none
  | (k, v) :: rest, key => if k = key then some v else lookupHeader rest key

/-- Models the header construction of `_make_request` (server.py lines
203 to 211): base headers, then `Authorization: Bearer` if a per-call token
is truthy, else `X-API-Key` if the static key is truthy, else nothing. -/
def resolveHeaders (auth_token : Option String) (api_key : Option String) :
    List (String × String) :=
  let headers := [("Content-Type", "application/json"),
                  ("User-Agent", "BugRelay-MCP-Server/1.0")]
  if optTruthy auth_token then
    headers ++ [("Authorization", "Bearer " ++ auth_token.getD "")]
  else if optTruthy api_key then
    headers ++ [("X-API-Key", api_key.getD "")]
  else
    headers

/-- The wire request `_make_request` hands to `self.client.request`: the
joined URL, the JSON body and query params as given, and the resolved
headers. -/
def builtRequest (st : ServerState) (method endpoint : String)
    (data params : Option ArgMap) (auth_token : Option String) : HttpRequest :=
  { method := method
    url := urljoin (st.base_url ++ "/") (lstripSlash endpoint)
    jsonBody := data
    params := params
    headers := resolveHeaders auth_token st.api_key }

/-- Models the error text built by the `httpx.HTTPStatusError` handler of
`_make_request` (lines 223 to 230): "HTTP <status>", then the `error` field
of a JSON-object body (default "Unknown error"), else the raw body text
(also when `.json()` fails or yields a non-dict, whose `.get` raises and
lands in the bare `except`). -/
def httpErrorDetail (resp : HttpResponse) : String :=
  let detail := "HTTP " ++ toString resp.status
  match resp.jsonBody with
  | Except.ok (Json.obj kvs) =>
      detail ++ ": " ++ pyStr ((dictGet kvs "error").getD (Json.str "Unknown error"))
  | _ => detail ++ ": " ++ resp.text

/-- Models `_make_request` (lines 192 to 232): build the URL and headers,
issue exactly one wire request, then: non-2xx statuses become the
`httpErrorDetail` exception (raised from the `HTTPStatusError` handler, so
it is not re-wrapped); transport failures and a 2xx body that fails to
decode become "Request failed: <description>". -/
def _make_request (st : ServerState) (b : Backend) (method endpoint : String)
    (data params : Option ArgMap) (auth_token : Option String) :
    Except String Json × ServerState :=
  let req := builtRequest st method endpoint data params auth_token
  let res : Except String Json :=
    match b req with
    | HttpOutcome.transportFail desc => Except.error ("Request failed: " ++ desc)
    | HttpOutcome.response resp =>
        if 200 ≤ resp.status ∧ resp.status ≤ 299 then
          match resp.jsonBody with
          | Except.ok j => Except.ok j
          | Except.error msg => Except.error ("Request failed: " ++ msg)
        else
          Except.error (httpErrorDetail resp)
  (res, { st with trace := st.trace ++ [req] })

/-- Models `_create_bug_report`: POST /api/v1/bugs with the whole argument
mapping as body. -/
def _create_bug_report (st : ServerState) (b : Backend) (args : ArgMap) :
    Except String Json × ServerState :=
  _make_request st b "POST" "/api/v1/bugs" (some args) none none

/-- Models `_get_bug_report`: reads `bug_id`, then GET /api/v1/bugs/{bug_id}. -/
def _get_bug_report (st : ServerState) (b : Backend) (args : ArgMap) :
    Except String Json × ServerState :=
  match pyGetItem args "bug_id" with
  | Except.error e => (Except.error e, st)
  | Except.ok bug_id =>
      _make_request st b "GET" ("/api/v1/bugs/" ++ pyStr bug_id) none none none

/-- Models `_list_bug_reports`: GET /api/v1/bugs with the arguments as
query parameters. -/
def _list_bug_reports (st : ServerState) (b : Backend) (args : ArgMap) :
    Except String Json × ServerState :=
  _make_request st b "GET" "/api/v1/bugs" none (some args) none

/-- Models `_vote_on_bug`: reads `bug_id`, builds the vote body from
`vote_type`, then POST /api/v1/bugs/{bug_id}/vote. -/
def _vote_on_bug (st : ServerState) (b : Backend) (args : ArgMap) :
    Except String Json × ServerState :=
  match pyGetItem args "bug_id" with
  | Except.error e => (Except.error e, st)
  | Except.ok bug_id =>
      match pyGetItem args "vote_type" with
      | Except.error e => (Except.error e, st)
      | Except.ok vote_type =>
          _make_request st b "POST" ("/api/v1/bugs/" ++ pyStr bug_id ++ "/vote")
            (some [("vote_type", vote_type)]) none none

/-- Models `_add_bug_comment`: reads `bug_id`, builds the comment body from
`content`, then POST /api/v1/bugs/{bug_id}/comments. -/
def _add_bug_comment (st : ServerState) (b : Backend) (args : ArgMap) :
    Except String Json × ServerState :=
  match pyGetItem args "bug_id" with
  | Except.error e => (Except.error e, st)
  | Except.ok bug_id =>
      match pyGetItem args "content" with
      | Except.error e => (Except.error e, st)
      | Except.ok content =>
          _make_request st b "POST" ("/api/v1/bugs/" ++ pyStr bug_id ++ "/comments")
            (some [("content", content)]) none none

/-- Models `_update_bug_status`: reads `bug_id` and `status`, with
`resolution_notes` optional, then PATCH /api/v1/bugs/{bug_id}/status. -/
def _update_bug_status (st : ServerState) (b : Backend) (args : ArgMap) :
    Except String Json × ServerState :=
  match pyGetItem args "bug_id" with
  | Except.error e => (Except.error e, st)
  | Except.ok bug_id =>
      match pyGetItem args "status" with
      | Except.error e => (Except.error e, st)
      | Except.ok status =>
          _make_request st b "PATCH" ("/api/v1/bugs/" ++ pyStr bug_id ++ "/status")
            (some [("status", status),
                   ("resolution_notes", (dictGet args "resolution_notes").getD Json.null)])
            none none

/-- Models `_register_user`: POST /api/v1/auth/register with the arguments
as body. -/
def _register_user (st : ServerState) (b : Backend) (args : ArgMap) :
    Except String Json × ServerState :=
  _make_request st b "POST" "/api/v1/auth/register" (some args) none none

/-- Models `_login_user`: POST /api/v1/auth/login with the arguments as
body; the response is returned as-is and nothing is retained from it. -/
def _login_user (st : ServerState) (b : Backend) (args : ArgMap) :
    Except String Json × ServerState :=
  _make_request st b "POST" "/api/v1/auth/login" (some args) none none

/-- Models `_get_user_profile`: GET /api/v1/auth/profile with no body, no
params and no per-call token. -/
def _get_user_profile (st : ServerState) (b : Backend) (_args : ArgMap) :
    Except String Json × ServerState :=
  _make_request st b "GET" "/api/v1/auth/profile" none none none

/-- Models `_update_user_profile`: PUT /api/v1/auth/profile with the
arguments as body. -/
def _update_user_profile (st : ServerState) (b : Backend) (args : ArgMap) :
    Except String Json × ServerState :=
  _make_request st b "PUT" "/api/v1/auth/profile" (some args) none none

/-- Models `_request_password_reset`: POST /api/v1/auth/password-reset. -/
def _request_password_reset (st : ServerState) (b : Backend) (args : ArgMap) :
    Except String Json × ServerState :=
  _make_request st b "POST" "/api/v1/auth/password-reset" (some args) none none

/-- Models `_verify_email`: GET /api/v1/auth/verify-email with the
arguments as query parameters. -/
def _verify_email (st : ServerState) (b : Backend) (args : ArgMap) :
    Except String Json × ServerState :=
  _make_request st b "GET" "/api/v1/auth/verify-email" none (some args) none

/-- Models `_list_companies`: GET /api/v1/companies with the arguments as
query parameters. -/
def _list_companies (st : ServerState) (b : Backend) (args : ArgMap) :
    Except String Json × ServerState :=
  _make_request st b "GET" "/api/v1/companies" none (some args) none

/-- Models `_get_company`: reads `company_id`, then
GET /api/v1/companies/{company_id}. -/
def _get_company (st : ServerState) (b : Backend) (args : ArgMap) :
    Except String Json × ServerState :=
  match pyGetItem args "company_id" with
  | Except.error e => (Except.error e, st)
  | Except.ok company_id =>
      _make_request st b "GET" ("/api/v1/companies/" ++ pyStr company_id) none none none

/-- Models `_claim_company`: reads `company_id`, builds the claim body from
`verification_email`, then POST /api/v1/companies/{company_id}/claim. -/
def _claim_company (st : ServerState) (b : Backend) (args : ArgMap) :
    Except String Json × ServerState :=
  match pyGetItem args "company_id" with
  | Except.error e => (Except.error e, st)
  | Except.ok company_id =>
      match pyGetItem args "verification_email" with
      | Except.error e => (Except.error e, st)
      | Except.ok verification_email =>
          _make_request st b "POST" ("/api/v1/companies/" ++ pyStr company_id ++ "/claim")
            (some [("verification_email", verification_email)]) none none

/-- Models `_verify_company_claim`: reads `company_id`, builds the body
from `verification_token`, then POST /api/v1/companies/{company_id}/verify. -/
def _verify_company_claim (st : ServerState) (b : Backend) (args : ArgMap) :
    Except String Json × ServerState :=
  match pyGetItem args "company_id" with
  | Except.error e => (Except.error e, st)
  | Except.ok company_id =>
      match pyGetItem args "verification_token" with
      | Except.error e => (Except.error e, st)
      | Except.ok verification_token =>
          _make_request st b "POST" ("/api/v1/companies/" ++ pyStr company_id ++ "/verify")
            (some [("verification_token", verification_token)]) none none

/-- Models `_get_company_dashboard`: reads `company_id`, then
GET /api/v1/companies/{company_id}/dashboard. -/
def _get_company_dashboard (st : ServerState) (b : Backend) (args : ArgMap) :
    Except String Json × ServerState :=
  match pyGetItem args "company_id" with
  | Except.error e => (Except.error e, st)
  | Except.ok company_id =>
      _make_request st b "GET" ("/api/v1/companies/" ++ pyStr company_id ++ "/dashboard")
        none none none

/-- Models `_add_team_member`: reads `company_id`, builds the member body
from `user_email` and optional `role` (default "member"), then
POST /api/v1/companies/{company_id}/members. -/
def _add_team_member (st : ServerState) (b : Backend) (args : ArgMap) :
    Except String Json × ServerState :=
  match pyGetItem args "company_id" with
  | Except.error e => (Except.error e, st)
  | Except.ok company_id =>
      match pyGetItem args "user_email" with
      | Except.error e => (Except.error e, st)
      | Except.ok user_email =>
          _make_request st b "POST" ("/api/v1/companies/" ++ pyStr company_id ++ "/members")
            (some [("user_email", user_email),
                   ("role", (dictGet args "role").getD (Json.str "member"))])
            none none

/-- Models `_remove_team_member`: reads `company_id`, builds the member
body from `user_id`, then DELETE /api/v1/companies/{company_id}/members
with that JSON body attached. -/
def _remove_team_member (st : ServerState) (b : Backend) (args : ArgMap) :
    Except String Json × ServerState :=
  match pyGetItem args "company_id" with
  | Except.error e => (Except.error e, st)
  | Except.ok company_id =>
      match pyGetItem args "user_id" with
      | Except.error e => (Except.error e, st)
      | Except.ok user_id =>
          _make_request st b "DELETE" ("/api/v1/companies/" ++ pyStr company_id ++ "/members")
            (some [("user_id", user_id)]) none none

/-- Models `_get_admin_dashboard`: GET /api/v1/admin/dashboard with the
arguments as query parameters. -/
def _get_admin_dashboard (st : ServerState) (b : Backend) (args : ArgMap) :
    Except String Json × ServerState :=
  _make_request st b "GET" "/api/v1/admin/dashboard" none (some args) none

/-- Models `_list_bugs_for_moderation`: GET /api/v1/admin/bugs with the
arguments as query parameters. -/
def _list_bugs_for_moderation (st : ServerState) (b : Backend) (args : ArgMap) :
    Except String Json × ServerState :=
  _make_request st b "GET" "/api/v1/admin/bugs" none (some args) none

/-- Models `_flag_bug`: reads `bug_id`, builds the flag body from `reason`
and optional `notes`, then POST /api/v1/admin/bugs/{bug_id}/flag. -/
def _flag_bug (st : ServerState) (b : Backend) (args : ArgMap) :
    Except String Json × ServerState :=
  match pyGetItem args "bug_id" with
  | Except.error e => (Except.error e, st)
  | Except.ok bug_id =>
      match pyGetItem args "reason" with
      | Except.error e => (Except.error e, st)
      | Except.ok reason =>
          _make_request st b "POST" ("/api/v1/admin/bugs/" ++ pyStr bug_id ++ "/flag")
            (some [("reason", reason),
                   ("notes", (dictGet args "notes").getD Json.null)])
            none none

/-- Models `_remove_bug`: reads `bug_id`, then
DELETE /api/v1/admin/bugs/{bug_id} with no body. -/
def _remove_bug (st : ServerState) (b : Backend) (args : ArgMap) :
    Except String Json × ServerState :=
  match pyGetItem args "bug_id" with
  | Except.error e => (Except.error e, st)
  | Except.ok bug_id =>
      _make_request st b "DELETE" ("/api/v1/admin/bugs/" ++ pyStr bug_id) none none none

/-- Models `_restore_bug`: reads `bug_id`, then
POST /api/v1/admin/bugs/{bug_id}/restore with no body. -/
def _restore_bug (st : ServerState) (b : Backend) (args : ArgMap) :
    Except String Json × ServerState :=
  match pyGetItem args "bug_id" with
  | Except.error e => (Except.error e, st)
  | Except.ok bug_id =>
      _make_request st b "POST" ("/api/v1/admin/bugs/" ++ pyStr bug_id ++ "/restore")
        none none none

/-- Models `_merge_bugs`: POST /api/v1/admin/bugs/merge with the arguments
as body. -/
def _merge_bugs (st : ServerState) (b : Backend) (args : ArgMap) :
    Except String Json × ServerState :=
  _make_request st b "POST" "/api/v1/admin/bugs/merge" (some args) none none

/-- Models `_get_audit_logs`: GET /api/v1/admin/audit-logs with the
arguments as query parameters. -/
def _get_audit_logs (st : ServerState) (b : Backend) (args : ArgMap) :
    Except String Json × ServerState :=
  _make_request st b "GET" "/api/v1/admin/audit-logs" none (some args) none

/-- Models `_initiate_oauth_login`: reads `provider`, forwards
`redirect_uri` and `state` as query parameters when present, then
GET /api/v1/auth/oauth/{provider}. -/
def _initiate_oauth_login (st : ServerState) (b : Backend) (args : ArgMap) :
    Except String Json × ServerState :=
  match pyGetItem args "provider" with
  | Except.error e => (Except.error e, st)
  | Except.ok provider =>
      let params0 : ArgMap := []
      let params1 := match dictGet args "redirect_uri" with
        | some v => params0 ++ [("redirect_uri", v)]
        | none => params0
      let params2 := match dictGet args "state" with
        | some v => params1 ++ [("state", v)]
        | none => params1
      _make_request st b "GET" ("/api/v1/auth/oauth/" ++ pyStr provider)
        none (some params2) none

/-- Models `_handle_oauth_callback`: reads `provider`, builds the callback
data from `code` and optional `state`, then
GET /api/v1/auth/oauth/callback/{provider} with that data as query
parameters. -/
def _handle_oauth_callback (st : ServerState) (b : Backend) (args : ArgMap) :
    Except String Json × ServerState :=
  match pyGetItem args "provider" with
  | Except.error e => (Except.error e, st)
  | Except.ok provider =>
      match pyGetItem args "code" with
      | Except.error e => (Except.error e, st)
      | Except.ok code =>
          _make_request st b "GET" ("/api/v1/auth/oauth/callback/" ++ pyStr provider)
            none
            (some [("code", code), ("state", (dictGet args "state").getD Json.null)])
            none

/-- Models `_link_oauth_account`: reads `provider`, builds the link body
from `code`, then POST /api/v1/auth/oauth/link/{provider}. -/
def _link_oauth_account (st : ServerState) (b : Backend) (args : ArgMap) :
    Except String Json × ServerState :=
  match pyGetItem args "provider" with
  | Except.error e => (Except.error e, st)
  | Except.ok provider =>
      match pyGetItem args "code" with
      | Except.error e => (Except.error e, st)
      | Except.ok code =>
          _make_request st b "POST" ("/api/v1/auth/oauth/link/" ++ pyStr provider)
            (some [("code", code)]) none none

/-- Models `_execute_tool` (lines 118 to 190): the exact string-matched
dispatch chain over the tool name, falling through to the ValueError
"Unknown tool: <name>" with no request issued. -/
def _execute_tool (st : ServerState) (b : Backend) (name : String) (args : ArgMap) :
    Except String Json × ServerState :=
  if name = "create_bug_report" then _create_bug_report st b args
  else if name = "get_bug_report" then _get_bug_report st b args
  else if name = "list_bug_reports" then _list_bug_reports st b args
  else if name = "vote_on_bug" then _vote_on_bug st b args
  else if name = "add_bug_comment" then _add_bug_comment st b args
  else if name = "update_bug_status" then _update_bug_status st b args
  else if name = "register_user" then _register_user st b args
  else if name = "login_user" then _login_user st b args
  else if name = "get_user_profile" then _get_user_profile st b args
  else if name = "update_user_profile" then _update_user_profile st b args
  else if name = "request_password_reset" then _request_password_reset st b args
  else if name = "verify_email" then _verify_email st b args
  else if name = "list_companies" then _list_companies st b args
  else if name = "get_company" then _get_company st b args
  else if name = "claim_company" then _claim_company st b args
  else if name = "verify_company_claim" then _verify_company_claim st b args
  else if name = "get_company_dashboard" then _get_company_dashboard st b args
  else if name = "add_team_member" then _add_team_member st b args
  else if name = "remove_team_member" then _remove_team_member st b args
  else if name = "get_admin_dashboard" then _get_admin_dashboard st b args
  else if name = "list_bugs_for_moderation" then _list_bugs_for_moderation st b args
  else if name = "flag_bug" then _flag_bug st b args
  else if name = "remove_bug" then _remove_bug st b args
  else if name = "restore_bug" then _restore_bug st b args
  else if name = "merge_bugs" then _merge_bugs st b args
  else if name = "get_audit_logs" then _get_audit_logs st b args
  else if name = "initiate_oauth_login" then _initiate_oauth_login st b args
  else if name = "handle_oauth_callback" then _handle_oauth_callback st b args
  else if name = "link_oauth_account" then _link_oauth_account st b args
  else (Except.error ("Unknown tool: " ++ name), st)

/-- The tool names the dispatch chain of `_execute_tool` recognizes. -/
def toolNames : List String :=
  ["create_bug_report", "get_bug_report", "list_bug_reports", "vote_on_bug",
   "add_bug_comment", "update_bug_status", "register_user", "login_user",
   "get_user_profile", "update_user_profile", "request_password_reset",
   "verify_email", "list_companies", "get_company", "claim_company",
   "verify_company_claim", "get_company_dashboard", "add_team_member",
   "remove_team_member", "get_admin_dashboard", "list_bugs_for_moderation",
   "flag_bug", "remove_bug", "restore_bug", "merge_bugs", "get_audit_logs",
   "initiate_oauth_login", "handle_oauth_callback", "link_oauth_account"]

/-- A single item of protocol output: `TextContent(type="text", text=...)`. -/
structure TextContent where
  type : String
  text : String

/-- Models `arguments or {}` in `handle_call_tool`: Python `or` yields the
left dict when it is truthy (non-empty), else the empty dict. -/
def pyOrEmpty (arguments : Option ArgMap) : ArgMap :=
  match arguments with
  | none => []
  | some a => if a.isEmpty then [] else a

/-- Models `handle_call_tool` (lines 106 to 116): run `_execute_tool` on
the arguments-or-empty mapping; success becomes one text item of
pretty-printed JSON, any exception becomes one text item "Error: <str e>". -/
def handle_call_tool (st : ServerState) (b : Backend) (name : String)
    (arguments : Option ArgMap) : List TextContent × ServerState :=
  match _execute_tool st b name (pyOrEmpty arguments) with
  | (Except.ok result, st2) => ([⟨"text", json_dumps result⟩], st2)
  | (Except.error e, st2) => ([⟨"text", "Error: " ++ e⟩], st2)

/-- Models `MCPServerConfig` (config.py): the declared configuration
fields with their defaults, including `max_retries`, which no code in
server.py consumes. -/
structure MCPServerConfig where
  base_url : String := "http://localhost:8080"
  api_key : Option String := none
  server_name : String := "bugrelay-mcp-server"
  server_version : String := "1.0.0"
  log_level : String := "INFO"
  request_timeout : Int := 30
  max_retries : Int := 3
  default_auth_token : Option String := none

/-- The state component of `_make_request` is always the old state with the
one built wire request appended to the trace. -/
lemma make_request_snd (st : ServerState) (b : Backend) (m ep : String)
    (d p : Option ArgMap) (t : Option String) :
    (_make_request st b m ep d p t).2 =
      { st with trace := st.trace ++ [builtRequest st m ep d p t] } := rfl

/-- Shape of `_create_bug_report`: it forwards one request with no per-call token. -/
lemma shape_create_bug_report (st : ServerState) (b : Backend) (args : ArgMap) :
    (∃ e, _create_bug_report st b args = (Except.error e, st)) ∨
    (∃ m ep d p, _create_bug_report st b args = _make_request st b m ep d p none ∧
      (m = "GET" → d = none)) := by
  unfold _create_bug_report
  exact Or.inr ⟨"POST", _, _, _, rfl, fun h => absurd h (by decide)⟩

/-- Shape of `_list_bug_reports`: it forwards one request with no per-call token. -/
lemma shape_list_bug_reports (st : ServerState) (b : Backend) (args : ArgMap) :
    (∃ e, _list_bug_reports st b args = (Except.error e, st)) ∨
    (∃ m ep d p, _list_bug_reports st b args = _make_request st b m ep d p none ∧
      (m = "GET" → d = none)) := by
  unfold _list_bug_reports
  exact Or.inr ⟨"GET", _, _, _, rfl, fun _ => rfl⟩

/-- Shape of `_register_user`: it forwards one request with no per-call token. -/
lemma shape_register_user (st : ServerState) (b : Backend) (args : ArgMap) :
    (∃ e, _register_user st b args = (Except.error e, st)) ∨
    (∃ m ep d p, _register_user st b args = _make_request st b m ep d p none ∧
      (m = "GET" → d = none)) := by
  unfold _register_user
  exact Or.inr ⟨"POST", _, _, _, rfl, fun h => absurd h (by decide)⟩

/-- Shape of `_login_user`: it forwards one request with no per-call token. -/
lemma shape_login_user (st : ServerState) (b : Backend) (args : ArgMap) :
    (∃ e, _login_user st b args = (Except.error e, st)) ∨
    (∃ m ep d p, _login_user st b args = _make_request st b m ep d p none ∧
      (m = "GET" → d = none)) := by
  unfold _login_user
  exact Or.inr ⟨"POST", _, _, _, rfl, fun h => absurd h (by decide)⟩

/-- Shape of `_get_user_profile`: it forwards one request with no per-call token. -/
lemma shape_get_user_profile (st : ServerState) (b : Backend) (args : ArgMap) :
    (∃ e, _get_user_profile st b args = (Except.error e, st)) ∨
    (∃ m ep d p, _get_user_profile st b args = _make_request st b m ep d p none ∧
      (m = "GET" → d = none)) := by
  unfold _get_user_profile
  exact Or.inr ⟨"GET", _, _, _, rfl, fun _ => rfl⟩

/-- Shape of `_update_user_profile`: it forwards one request with no per-call token. -/
lemma shape_update_user_profile (st : ServerState) (b : Backend) (args : ArgMap) :
    (∃ e, _update_user_profile st b args = (Except.error e, st)) ∨
    (∃ m ep d p, _update_user_profile st b args = _make_request st b m ep d p none ∧
      (m = "GET" → d = none)) := by
  unfold _update_user_profile
  exact Or.inr ⟨"PUT", _, _, _, rfl, fun h => absurd h (by decide)⟩

/-- Shape of `_request_password_reset`: it forwards one request with no per-call token. -/
lemma shape_request_password_reset (st : ServerState) (b : Backend) (args : ArgMap) :
    (∃ e, _request_password_reset st b args = (Except.error e, st)) ∨
    (∃ m ep d p, _request_password_reset st b args = _make_request st b m ep d p none ∧
      (m = "GET" → d = none)) := by
  unfold _request_password_reset
  exact Or.inr ⟨"POST", _, _, _, rfl, fun h => absurd h (by decide)⟩

/-- Shape of `_verify_email`: it forwards one request with no per-call token. -/
lemma shape_verify_email (st : ServerState) (b : Backend) (args : ArgMap) :
    (∃ e, _verify_email st b args = (Except.error e, st)) ∨
    (∃ m ep d p, _verify_email st b args = _make_request st b m ep d p none ∧
      (m = "GET" → d = none)) := by
  unfold _verify_email
  exact Or.inr ⟨"GET", _, _, _, rfl, fun _ => rfl⟩

/-- Shape of `_list_companies`: it forwards one request with no per-call token. -/
lemma shape_list_companies (st : ServerState) (b : Backend) (args : ArgMap) :
    (∃ e, _list_companies st b args = (Except.error e, st)) ∨
    (∃ m ep d p, _list_companies st b args = _make_request st b m ep d p none ∧
      (m = "GET" → d = none)) := by
  unfold _list_companies
  exact Or.inr ⟨"GET", _, _, _, rfl, fun _ => rfl⟩

/-- Shape of `_get_admin_dashboard`: it forwards one request with no per-call token. -/
lemma shape_get_admin_dashboard (st : ServerState) (b : Backend) (args : ArgMap) :
    (∃ e, _get_admin_dashboard st b args = (Except.error e, st)) ∨
    (∃ m ep d p, _get_admin_dashboard st b args = _make_request st b m ep d p none ∧
      (m = "GET" → d = none)) := by
  unfold _get_admin_dashboard
  exact Or.inr ⟨"GET", _, _, _, rfl, fun _ => rfl⟩

/-- Shape of `_list_bugs_for_moderation`: it forwards one request with no per-call token. -/
lemma shape_list_bugs_for_moderation (st : ServerState) (b : Backend) (args : ArgMap) :
    (∃ e, _list_bugs_for_moderation st b args = (Except.error e, st)) ∨
    (∃ m ep d p, _list_bugs_for_moderation st b args = _make_request st b m ep d p none ∧
      (m = "GET" → d = none)) := by
  unfold _list_bugs_for_moderation
  exact Or.inr ⟨"GET", _, _, _, rfl, fun _ => rfl⟩

/-- Shape of `_merge_bugs`: it forwards one request with no per-call token. -/
lemma shape_merge_bugs (st : ServerState) (b : Backend) (args : ArgMap) :
    (∃ e, _merge_bugs st b args = (Except.error e, st)) ∨
    (∃ m ep d p, _merge_bugs st b args = _make_request st b m ep d p none ∧
      (m = "GET" → d = none)) := by
  unfold _merge_bugs
  exact Or.inr ⟨"POST", _, _, _, rfl, fun h => absurd h (by decide)⟩

/-- Shape of `_get_audit_logs`: it forwards one request with no per-call token. -/
lemma shape_get_audit_logs (st : ServerState) (b : Backend) (args : ArgMap) :
    (∃ e, _get_audit_logs st b args = (Except.error e, st)) ∨
    (∃ m ep d p, _get_audit_logs st b args = _make_request st b m ep d p none ∧
      (m = "GET" → d = none)) := by
  unfold _get_audit_logs
  exact Or.inr ⟨"GET", _, _, _, rfl, fun _ => rfl⟩

/-- Shape of `_get_bug_report`: a missing `bug_id` fails without a request; otherwise
it forwards one request with no per-call token. -/
lemma shape_get_bug_report (st : ServerState) (b : Backend) (args : ArgMap) :
    (∃ e, _get_bug_report st b args = (Except.error e, st)) ∨
    (∃ m ep d p, _get_bug_report st b args = _make_request st b m ep d p none ∧
      (m = "GET" → d = none)) := by
  unfold _get_bug_report
  cases pyGetItem args "bug_id" with
  | error e => exact Or.inl ⟨e, rfl⟩
  | ok v => exact Or.inr ⟨"GET", _, _, _, rfl, fun _ => rfl⟩

/-- Shape of `_get_company`: a missing `company_id` fails without a request; otherwise
it forwards one request with no per-call token. -/
lemma shape_get_company (st : ServerState) (b : Backend) (args : ArgMap) :
    (∃ e, _get_company st b args = (Except.error e, st)) ∨
    (∃ m ep d p, _get_company st b args = _make_request st b m ep d p none ∧
      (m = "GET" → d = none)) := by
  unfold _get_company
  cases pyGetItem args "company_id" with
  | error e => exact Or.inl ⟨e, rfl⟩
  | ok v => exact Or.inr ⟨"GET", _, _, _, rfl, fun _ => rfl⟩

/-- Shape of `_get_company_dashboard`: a missing `company_id` fails without a request; otherwise
it forwards one request with no per-call token. -/
lemma shape_get_company_dashboard (st : ServerState) (b : Backend) (args : ArgMap) :
    (∃ e, _get_company_dashboard st b args = (Except.error e, st)) ∨
    (∃ m ep d p, _get_company_dashboard st b args = _make_request st b m ep d p none ∧
      (m = "GET" → d = none)) := by
  unfold _get_company_dashboard
  cases pyGetItem args "company_id" with
  | error e => exact Or.inl ⟨e, rfl⟩
  | ok v => exact Or.inr ⟨"GET", _, _, _, rfl, fun _ => rfl⟩

/-- Shape of `_remove_bug`: a missing `bug_id` fails without a request; otherwise
it forwards one request with no per-call token. -/
lemma shape_remove_bug (st : ServerState) (b : Backend) (args : ArgMap) :
    (∃ e, _remove_bug st b args = (Except.error e, st)) ∨
    (∃ m ep d p, _remove_bug st b args = _make_request st b m ep d p none ∧
      (m = "GET" → d = none)) := by
  unfold _remove_bug
  cases pyGetItem args "bug_id" with
  | error e => exact Or.inl ⟨e, rfl⟩
  | ok v => exact Or.inr ⟨"DELETE", _, _, _, rfl, fun h => absurd h (by decide)⟩

/-- Shape of `_restore_bug`: a missing `bug_id` fails without a request; otherwise
it forwards one request with no per-call token. -/
lemma shape_restore_bug (st : ServerState) (b : Backend) (args : ArgMap) :
    (∃ e, _restore_bug st b args = (Except.error e, st)) ∨
    (∃ m ep d p, _restore_bug st b args = _make_request st b m ep d p none ∧
      (m = "GET" → d = none)) := by
  unfold _restore_bug
  cases pyGetItem args "bug_id" with
  | error e => exact Or.inl ⟨e, rfl⟩
  | ok v => exact Or.inr ⟨"POST", _, _, _, rfl, fun h => absurd h (by decide)⟩

/-- Shape of `_initiate_oauth_login`: a missing `provider` fails without a request; otherwise
it forwards one request with no per-call token. -/
lemma shape_initiate_oauth_login (st : ServerState) (b : Backend) (args : ArgMap) :
    (∃ e, _initiate_oauth_login st b args = (Except.error e, st)) ∨
    (∃ m ep d p, _initiate_oauth_login st b args = _make_request st b m ep d p none ∧
      (m = "GET" → d = none)) := by
  unfold _initiate_oauth_login
  cases pyGetItem args "provider" with
  | error e => exact Or.inl ⟨e, rfl⟩
  | ok v => exact Or.inr ⟨"GET", _, _, _, rfl, fun _ => rfl⟩

/-- Shape of `_vote_on_bug`: a missing `bug_id` or `vote_type` fails without a request;
otherwise it forwards one request with no per-call token. -/
lemma shape_vote_on_bug (st : ServerState) (b : Backend) (args : ArgMap) :
    (∃ e, _vote_on_bug st b args = (Except.error e, st)) ∨
    (∃ m ep d p, _vote_on_bug st b args = _make_request st b m ep d p none ∧
      (m = "GET" → d = none)) := by
  unfold _vote_on_bug
  cases pyGetItem args "bug_id" with
  | error e => exact Or.inl ⟨e, rfl⟩
  | ok v =>
    cases pyGetItem args "vote_type" with
    | error e => exact Or.inl ⟨e, rfl⟩
    | ok w => exact Or.inr ⟨"POST", _, _, _, rfl, fun h => absurd h (by decide)⟩

/-- Shape of `_add_bug_comment`: a missing `bug_id` or `content` fails without a request;
otherwise it forwards one request with no per-call token. -/
lemma shape_add_bug_comment (st : ServerState) (b : Backend) (args : ArgMap) :
    (∃ e, _add_bug_comment st b args = (Except.error e, st)) ∨
    (∃ m ep d p, _add_bug_comment st b args = _make_request st b m ep d p none ∧
      (m = "GET" → d = none)) := by
  unfold _add_bug_comment
  cases pyGetItem args "bug_id" with
  | error e => exact Or.inl ⟨e, rfl⟩
  | ok v =>
    cases pyGetItem args "content" with
    | error e => exact Or.inl ⟨e, rfl⟩
    | ok w => exact Or.inr ⟨"POST", _, _, _, rfl, fun h => absurd h (by decide)⟩

/-- Shape of `_update_bug_status`: a missing `bug_id` or `status` fails without a request;
otherwise it forwards one request with no per-call token. -/
lemma shape_update_bug_status (st : ServerState) (b : Backend) (args : ArgMap) :
    (∃ e, _update_bug_status st b args = (Except.error e, st)) ∨
    (∃ m ep d p, _update_bug_status st b args = _make_request st b m ep d p none ∧
      (m = "GET" → d = none)) := by
  unfold _update_bug_status
  cases pyGetItem args "bug_id" with
  | error e => exact Or.inl ⟨e, rfl⟩
  | ok v =>
    cases pyGetItem args "status" with
    | error e => exact Or.inl ⟨e, rfl⟩
    | ok w => exact Or.inr ⟨"PATCH", _, _, _, rfl, fun h => absurd h (by decide)⟩

/-- Shape of `_claim_company`: a missing `company_id` or `verification_email` fails without a request;
otherwise it forwards one request with no per-call token. -/
lemma shape_claim_company (st : ServerState) (b : Backend) (args : ArgMap) :
    (∃ e, _claim_company st b args = (Except.error e, st)) ∨
    (∃ m ep d p, _claim_company st b args = _make_request st b m ep d p none ∧
      (m = "GET" → d = none)) := by
  unfold _claim_company
  cases pyGetItem args "company_id" with
  | error e => exact Or.inl ⟨e, rfl⟩
  | ok v =>
    cases pyGetItem args "verification_email" with
    | error e => exact Or.inl ⟨e, rfl⟩
    | ok w => exact Or.inr ⟨"POST", _, _, _, rfl, fun h => absurd h (by decide)⟩

/-- Shape of `_verify_company_claim`: a missing `company_id` or `verification_token` fails without a request;
otherwise it forwards one request with no per-call token. -/
lemma shape_verify_company_claim (st : ServerState) (b : Backend) (args : ArgMap) :
    (∃ e, _verify_company_claim st b args = (Except.error e, st)) ∨
    (∃ m ep d p, _verify_company_claim st b args = _make_request st b m ep d p none ∧
      (m = "GET" → d = none)) := by
  unfold _verify_company_claim
  cases pyGetItem args "company_id" with
  | error e => exact Or.inl ⟨e, rfl⟩
  | ok v =>
    cases pyGetItem args "verification_token" with
    | error e => exact Or.inl ⟨e, rfl⟩
    | ok w => exact Or.inr ⟨"POST", _, _, _, rfl, fun h => absurd h (by decide)⟩

/-- Shape of `_add_team_member`: a missing `company_id` or `user_email` fails without a request;
otherwise it forwards one request with no per-call token. -/
lemma shape_add_team_member (st : ServerState) (b : Backend) (args : ArgMap) :
    (∃ e, _add_team_member st b args = (Except.error e, st)) ∨
    (∃ m ep d p, _add_team_member st b args = _make_request st b m ep d p none ∧
      (m = "GET" → d = none)) := by
  unfold _add_team_member
  cases pyGetItem args "company_id" with
  | error e => exact Or.inl ⟨e, rfl⟩
  | ok v =>
    cases pyGetItem args "user_email" with
    | error e => exact Or.inl ⟨e, rfl⟩
    | ok w => exact Or.inr ⟨"POST", _, _, _, rfl, fun h => absurd h (by decide)⟩

/-- Shape of `_remove_team_member`: a missing `company_id` or `user_id` fails without a request;
otherwise it forwards one request with no per-call token. -/
lemma shape_remove_team_member (st : ServerState) (b : Backend) (args : ArgMap) :
    (∃ e, _remove_team_member st b args = (Except.error e, st)) ∨
    (∃ m ep d p, _remove_team_member st b args = _make_request st b m ep d p none ∧
      (m = "GET" → d = none)) := by
  unfold _remove_team_member
  cases pyGetItem args "company_id" with
  | error e => exact Or.inl ⟨e, rfl⟩
  | ok v =>
    cases pyGetItem args "user_id" with
    | error e => exact Or.inl ⟨e, rfl⟩
    | ok w => exact Or.inr ⟨"DELETE", _, _, _, rfl, fun h => absurd h (by decide)⟩

/-- Shape of `_flag_bug`: a missing `bug_id` or `reason` fails without a request;
otherwise it forwards one request with no per-call token. -/
lemma shape_flag_bug (st : ServerState) (b : Backend) (args : ArgMap) :
    (∃ e, _flag_bug st b args = (Except.error e, st)) ∨
    (∃ m ep d p, _flag_bug st b args = _make_request st b m ep d p none ∧
      (m = "GET" → d = none)) := by
  unfold _flag_bug
  cases pyGetItem args "bug_id" with
  | error e => exact Or.inl ⟨e, rfl⟩
  | ok v =>
    cases pyGetItem args "reason" with
    | error e => exact Or.inl ⟨e, rfl⟩
    | ok w => exact Or.inr ⟨"POST", _, _, _, rfl, fun h => absurd h (by decide)⟩

/-- Shape of `_handle_oauth_callback`: a missing `provider` or `code` fails without a request;
otherwise it forwards one request with no per-call token. -/
lemma shape_handle_oauth_callback (st : ServerState) (b : Backend) (args : ArgMap) :
    (∃ e, _handle_oauth_callback st b args = (Except.error e, st)) ∨
    (∃ m ep d p, _handle_oauth_callback st b args = _make_request st b m ep d p none ∧
      (m = "GET" → d = none)) := by
  unfold _handle_oauth_callback
  cases pyGetItem args "provider" with
  | error e => exact Or.inl ⟨e, rfl⟩
  | ok v =>
    cases pyGetItem args "code" with
    | error e => exact Or.inl ⟨e, rfl⟩
    | ok w => exact Or.inr ⟨"GET", _, _, _, rfl, fun _ => rfl⟩

/-- Shape of `_link_oauth_account`: a missing `provider` or `code` fails without a request;
otherwise it forwards one request with no per-call token. -/
lemma shape_link_oauth_account (st : ServerState) (b : Backend) (args : ArgMap) :
    (∃ e, _link_oauth_account st b args = (Except.error e, st)) ∨
    (∃ m ep d p, _link_oauth_account st b args = _make_request st b m ep d p none ∧
      (m = "GET" → d = none)) := by
  unfold _link_oauth_account
  cases pyGetItem args "provider" with
  | error e => exact Or.inl ⟨e, rfl⟩
  | ok v =>
    cases pyGetItem args "code" with
    | error e => exact Or.inl ⟨e, rfl⟩
    | ok w => exact Or.inr ⟨"POST", _, _, _, rfl, fun h => absurd h (by decide)⟩

set_option maxHeartbeats 2000000 in
/-- Every dispatch outcome either fails before the network with the state
unchanged, or is one `_make_request` call made with no per-call token, and
with no body whenever the method is GET. -/
lemma execute_tool_shape (st : ServerState) (b : Backend) (name : String)
    (args : ArgMap) :
    (∃ e, _execute_tool st b name args = (Except.error e, st)) ∨
    (∃ m ep d p, _execute_tool st b name args = _make_request st b m ep d p none ∧
      (m = "GET" → d = none)) := by
  unfold _execute_tool
  by_cases h1 : name = "create_bug_report"
  · rw [if_pos h1]
    exact shape_create_bug_report st b args
  rw [if_neg h1]
  by_cases h2 : name = "get_bug_report"
  · rw [if_pos h2]
    exact shape_get_bug_report st b args
  rw [if_neg h2]
  by_cases h3 : name = "list_bug_reports"
  · rw [if_pos h3]
    exact shape_list_bug_reports st b args
  rw [if_neg h3]
  by_cases h4 : name = "vote_on_bug"
  · rw [if_pos h4]
    exact shape_vote_on_bug st b args
  rw [if_neg h4]
  by_cases h5 : name = "add_bug_comment"
  · rw [if_pos h5]
    exact shape_add_bug_comment st b args
  rw [if_neg h5]
  by_cases h6 : name = "update_bug_status"
  · rw [if_pos h6]
    exact shape_update_bug_status st b args
  rw [if_neg h6]
  by_cases h7 : name = "register_user"
  · rw [if_pos h7]
    exact shape_register_user st b args
  rw [if_neg h7]
  by_cases h8 : name = "login_user"
  · rw [if_pos h8]
    exact shape_login_user st b args
  rw [if_neg h8]
  by_cases h9 : name = "get_user_profile"
  · rw [if_pos h9]
    exact shape_get_user_profile st b args
  rw [if_neg h9]
  by_cases h10 : name = "update_user_profile"
  · rw [if_pos h10]
    exact shape_update_user_profile st b args
  rw [if_neg h10]
  by_cases h11 : name = "request_password_reset"
  · rw [if_pos h11]
    exact shape_request_password_reset st b args
  rw [if_neg h11]
  by_cases h12 : name = "verify_email"
  · rw [if_pos h12]
    exact shape_verify_email st b args
  rw [if_neg h12]
  by_cases h13 : name = "list_companies"
  · rw [if_pos h13]
    exact shape_list_companies st b args
  rw [if_neg h13]
  by_cases h14 : name = "get_company"
  · rw [if_pos h14]
    exact shape_get_company st b args
  rw [if_neg h14]
  by_cases h15 : name = "claim_company"
  · rw [if_pos h15]
    exact shape_claim_company st b args
  rw [if_neg h15]
  by_cases h16 : name = "verify_company_claim"
  · rw [if_pos h16]
    exact shape_verify_company_claim st b args
  rw [if_neg h16]
  by_cases h17 : name = "get_company_dashboard"
  · rw [if_pos h17]
    exact shape_get_company_dashboard st b args
  rw [if_neg h17]
  by_cases h18 : name = "add_team_member"
  · rw [if_pos h18]
    exact shape_add_team_member st b args
  rw [if_neg h18]
  by_cases h19 : name = "remove_team_member"
  · rw [if_pos h19]
    exact shape_remove_team_member st b args
  rw [if_neg h19]
  by_cases h20 : name = "get_admin_dashboard"
  · rw [if_pos h20]
    exact shape_get_admin_dashboard st b args
  rw [if_neg h20]
  by_cases h21 : name = "list_bugs_for_moderation"
  · rw [if_pos h21]
    exact shape_list_bugs_for_moderation st b args
  rw [if_neg h21]
  by_cases h22 : name = "flag_bug"
  · rw [if_pos h22]
    exact shape_flag_bug st b args
  rw [if_neg h22]
  by_cases h23 : name = "remove_bug"
  · rw [if_pos h23]
    exact shape_remove_bug st b args
  rw [if_neg h23]
  by_cases h24 : name = "restore_bug"
  · rw [if_pos h24]
    exact shape_restore_bug st b args
  rw [if_neg h24]
  by_cases h25 : name = "merge_bugs"
  · rw [if_pos h25]
    exact shape_merge_bugs st b args
  rw [if_neg h25]
  by_cases h26 : name = "get_audit_logs"
  · rw [if_pos h26]
    exact shape_get_audit_logs st b args
  rw [if_neg h26]
  by_cases h27 : name = "initiate_oauth_login"
  · rw [if_pos h27]
    exact shape_initiate_oauth_login st b args
  rw [if_neg h27]
  by_cases h28 : name = "handle_oauth_callback"
  · rw [if_pos h28]
    exact shape_handle_oauth_callback st b args
  rw [if_neg h28]
  by_cases h29 : name = "link_oauth_account"
  · rw [if_pos h29]
    exact shape_link_oauth_account st b args
  rw [if_neg h29]
  exact Or.inl ⟨_, rfl⟩

/-- Consequence of `execute_tool_shape` at the level of states: the state is
unchanged, or exactly one request was appended, carrying the headers for a
call with no per-call token and no body when its method is GET. -/
lemma execute_tool_cases (st : ServerState) (b : Backend) (name : String)
    (args : ArgMap) :
    (_execute_tool st b name args).2 = st ∨
    ∃ req, (_execute_tool st b name args).2 = { st with trace := st.trace ++ [req] } ∧
      req.headers = resolveHeaders none st.api_key ∧
      (req.method = "GET" → req.jsonBody = none) := by
  rcases execute_tool_shape st b name args with ⟨e, h⟩ | ⟨m, ep, d, p, h, hGD⟩
  · left
    rw [h]
  · right
    refine ⟨builtRequest st m ep d p none, ?_, rfl, ?_⟩
    · rw [h, make_request_snd]
    · intro hm
      have hd : d = none := hGD hm
      simp [builtRequest, hd]

/-- Lookups in the headers of a call made with no per-call token: never an
Authorization header, and an X-API-Key header exactly when the static key
is truthy. -/
lemma resolveHeaders_none_lookups (api_key : Option String) :
    lookupHeader (resolveHeaders none api_key) "Authorization" = none ∧
    lookupHeader (resolveHeaders none api_key) "X-API-Key" =
      (if optTruthy api_key then some (api_key.getD "") else none) := by
  by_cases h : optTruthy api_key <;>
    simp [resolveHeaders, lookupHeader, h, show optTruthy none = false from rfl]

/-- A demonstration backend that answers every request with 200 and an
empty JSON object. -/
def demoBackend : Backend :=
  fun _ => HttpOutcome.response ⟨200, Except.ok (Json.obj []), "\x7b\x7d"⟩

/-- C10: invoking `handle_call_tool` with an absent (null) argument mapping
behaves exactly as invoking it with an empty argument mapping; `arguments
or` turns both into the empty dict before dispatch. -/
theorem call_tool_null_args (st : ServerState) (b : Backend) (name : String) :
    handle_call_tool st b name none = handle_call_tool st b name (some []) := rfl

/-- C2: at most one authentication header is attached per outbound request,
and the wire request built by `_make_request` carries exactly the resolved
headers: a truthy per-call token yields only `Authorization: Bearer`; else
a truthy static API key yields only `X-API-Key`; else neither is present. -/
theorem auth_header_exclusive (auth_token api_key : Option String) :
    (∀ st b m ep d p,
      (builtRequest st m ep d p auth_token).headers =
        resolveHeaders auth_token st.api_key ∧
      (_make_request st b m ep d p auth_token).2.trace =
        st.trace ++ [builtRequest st m ep d p auth_token]) ∧
    (¬((lookupHeader (resolveHeaders auth_token api_key) "Authorization").isSome = true ∧
       (lookupHeader (resolveHeaders auth_token api_key) "X-API-Key").isSome = true)) ∧
    (optTruthy auth_token = true →
      lookupHeader (resolveHeaders auth_token api_key) "Authorization" =
        some ("Bearer " ++ auth_token.getD "") ∧
      lookupHeader (resolveHeaders auth_token api_key) "X-API-Key" = none) ∧
    (optTruthy auth_token = false → optTruthy api_key = true →
      lookupHeader (resolveHeaders auth_token api_key) "X-API-Key" =
        some (api_key.getD "") ∧
      lookupHeader (resolveHeaders auth_token api_key) "Authorization" = none) ∧
    (optTruthy auth_token = false → optTruthy api_key = false →
      lookupHeader (resolveHeaders auth_token api_key) "Authorization" = none ∧
      lookupHeader (resolveHeaders auth_token api_key) "X-API-Key" = none) := by
  refine ⟨fun st b m ep d p => ⟨rfl, rfl⟩, ?_, ?_, ?_, ?_⟩ <;>
    by_cases h1 : optTruthy auth_token <;>
    by_cases h2 : optTruthy api_key <;>
    simp [resolveHeaders, lookupHeader, h1, h2]

/-- Witness for C2 at a concrete pair of credentials: with both a per-call
token and a static key present, the bearer header wins and no X-API-Key
header appears. -/
theorem auth_header_exclusive_witness :
    lookupHeader (resolveHeaders (some "tok") (some "key")) "Authorization" =
      some ("Bearer " ++ (some "tok").getD "") ∧
    lookupHeader (resolveHeaders (some "tok") (some "key")) "X-API-Key" = none :=
  (auth_header_exclusive (some "tok") (some "key")).2.2.1 rfl

/-- C9: the declared retry budget is 3, yet every `_make_request` issues
exactly one wire request, and every tool execution issues at most one —
this layer never retries. -/
theorem execute_tool_single_attempt :
    ({} : MCPServerConfig).max_retries = 3 ∧
    (∀ st b m ep d p t,
      (_make_request st b m ep d p t).2.trace.length = st.trace.length + 1) ∧
    (∀ st b name args,
      (_execute_tool st b name args).2.trace.length ≤ st.trace.length + 1) := by
  refine ⟨rfl, ?_, ?_⟩
  · intro st b m ep d p t
    rw [make_request_snd]
    simp
  · intro st b name args
    rcases execute_tool_cases st b name args with h | ⟨req, h, -, -⟩
    · rw [h]
      omega
    · rw [h]
      simp

/-- C7: a transport-level failure (connection failure or timeout) and a 2xx
response whose body fails to decode both surface as an error whose text
begins with "Request failed:" followed by the failure description. -/
theorem transport_error_text (st : ServerState) (b : Backend) (m ep : String)
    (d p : Option ArgMap) (t : Option String) :
    (∀ desc, b (builtRequest st m ep d p t) = HttpOutcome.transportFail desc →
      (_make_request st b m ep d p t).1 =
        Except.error ("Request failed: " ++ desc)) ∧
    (∀ resp msg, b (builtRequest st m ep d p t) = HttpOutcome.response resp →
      200 ≤ resp.status → resp.status ≤ 299 →
      resp.jsonBody = Except.error msg →
      (_make_request st b m ep d p t).1 =
        Except.error ("Request failed: " ++ msg)) := by
  constructor
  · intro desc h
    simp only [_make_request, h]
  · intro resp msg h h1 h2 hj
    simp only [_make_request, h]
    rw [if_pos ⟨h1, h2⟩, hj]

/-- A backend whose every call fails at the transport level with a refused
connection. -/
def failBackend : Backend := fun _ => HttpOutcome.transportFail "Connection refused"

/-- Witness for C7: a refused connection surfaces as the normalized
"Request failed: Connection refused" error. -/
theorem transport_error_text_witness :
    (_make_request (serverInit "http://localhost:8080" none) failBackend
      "GET" "/api/v1/bugs" none none none).1 =
      Except.error ("Request failed: " ++ "Connection refused") :=
  (transport_error_text (serverInit "http://localhost:8080" none) failBackend
    "GET" "/api/v1/bugs" none none none).1 "Connection refused" rfl

/-- C3: executing any tool name outside the dispatch table returns the
error "Unknown tool: <name>" with the state unchanged, so no outbound
request is issued. -/
theorem unknown_tool_no_call (st : ServerState) (b : Backend) (name : String)
    (args : ArgMap) (h : name ∉ toolNames) :
    _execute_tool st b name args =
      (Except.error ("Unknown tool: " ++ name), st) := by
  simp only [toolNames, List.mem_cons, List.mem_singleton, not_or] at h
  obtain ⟨h1, h2, h3, h4, h5, h6, h7, h8, h9, h10, h11, h12, h13, h14, h15, h16, h17, h18, h19, h20, h21, h22, h23, h24, h25, h26, h27, h28, h29, -⟩ := h
  unfold _execute_tool
  rw [if_neg h1, if_neg h2, if_neg h3, if_neg h4, if_neg h5, if_neg h6, if_neg h7, if_neg h8, if_neg h9, if_neg h10, if_neg h11, if_neg h12, if_neg h13, if_neg h14, if_neg h15, if_neg h16, if_neg h17, if_neg h18, if_neg h19, if_neg h20, if_neg h21, if_neg h22, if_neg h23, if_neg h24, if_neg h25, if_neg h26, if_neg h27, if_neg h28, if_neg h29]

/-- Witness for C3: the name "frobnicate" is not in the table, and
executing it on a fresh server returns the Unknown tool error with the
trace still empty. -/
theorem unknown_tool_no_call_witness :
    ("frobnicate" ∉ toolNames) ∧
    _execute_tool (serverInit "http://localhost:8080" none) demoBackend
        "frobnicate" [] =
      (Except.error ("Unknown tool: " ++ "frobnicate"),
        serverInit "http://localhost:8080" none) :=
  ⟨by decide,
   unknown_tool_no_call (serverInit "http://localhost:8080" none) demoBackend
     "frobnicate" [] (by decide)⟩

/-- The tools whose forwarding recipe substitutes a path parameter, paired
with the name of that parameter (the first subscript access the handler
performs). -/
def pathParamTools : List (String × String) :=
  [("get_bug_report", "bug_id"), ("vote_on_bug", "bug_id"),
   ("add_bug_comment", "bug_id"), ("update_bug_status", "bug_id"),
   ("get_company", "company_id"), ("claim_company", "company_id"),
   ("verify_company_claim", "company_id"), ("get_company_dashboard", "company_id"),
   ("add_team_member", "company_id"), ("remove_team_member", "company_id"),
   ("flag_bug", "bug_id"), ("remove_bug", "bug_id"), ("restore_bug", "bug_id"),
   ("initiate_oauth_login", "provider"), ("handle_oauth_callback", "provider"),
   ("link_oauth_account", "provider")]

/-- C5: for every tool with a required path parameter, invoking it with an
argument mapping lacking that parameter fails with the KeyError naming the
missing field, and the state is unchanged: no network I/O occurs. -/
theorem missing_path_param (p : String × String) (hp : p ∈ pathParamTools)
    (st : ServerState) (b : Backend) (args : ArgMap)
    (hmiss : dictGet args p.2 = none) :
    _execute_tool st b p.1 args =
      (Except.error (pyQuote ++ p.2 ++ pyQuote), st) := by
  fin_cases hp <;>
    simp_all [_execute_tool, _get_bug_report, _vote_on_bug, _add_bug_comment,
      _update_bug_status, _get_company, _claim_company, _verify_company_claim,
      _get_company_dashboard, _add_team_member, _remove_team_member, _flag_bug,
      _remove_bug, _restore_bug, _initiate_oauth_login, _handle_oauth_callback,
      _link_oauth_account, pyGetItem]

/-- Witness for C5: `get_bug_report` with an empty argument mapping fails
with the KeyError naming `bug_id` and issues no request. -/
theorem missing_path_param_witness :
    (("get_bug_report", "bug_id") ∈ pathParamTools) ∧
    _execute_tool (serverInit "http://localhost:8080" none) demoBackend
        "get_bug_report" [] =
      (Except.error (pyQuote ++ "bug_id" ++ pyQuote),
        serverInit "http://localhost:8080" none) :=
  ⟨by decide,
   missing_path_param ("get_bug_report", "bug_id") (by decide)
     (serverInit "http://localhost:8080" none) demoBackend [] rfl⟩

/-- A backend answering every request with 404 and a JSON object body that
has no `error` field. -/
def b404noerr : Backend :=
  fun _ => HttpOutcome.response
    ⟨404, Except.ok (Json.obj [("message", Json.str "nope")]),
     "\x7b\"message\": \"nope\"\x7d"⟩

/-- Counterexample to C6: on a 404 whose body parses as JSON without an
`error` field, the code yields "HTTP 404: Unknown error" — not
"HTTP 404: <raw body text>" as the claim requires. -/
theorem backend_error_raw_text_counterexample :
    (_make_request (serverInit "http://localhost:8080" none) b404noerr "GET"
        "/api/v1/bugs/1" none none none).1 =
      Except.error "HTTP 404: Unknown error" ∧
    "HTTP 404: Unknown error" ≠ "HTTP 404: " ++ "\x7b\"message\": \"nope\"\x7d" :=
  ⟨rfl, by decide⟩

/-- C6 amended: on a 4xx/5xx response, the error text is
"HTTP <status>: <message>" where message is the `error` field when the body
parses as a JSON object containing it, the fixed text "Unknown error" when
it parses as a JSON object lacking it, and otherwise the raw response
text. -/
theorem backend_error_detail (st : ServerState) (b : Backend) (m ep : String)
    (d p : Option ArgMap) (t : Option String) (resp : HttpResponse)
    (h : b (builtRequest st m ep d p t) = HttpOutcome.response resp)
    (h4 : 400 ≤ resp.status) (h5 : resp.status ≤ 599) :
    (_make_request st b m ep d p t).1 =
      Except.error ("HTTP " ++ toString resp.status ++ ": " ++
        (match resp.jsonBody with
         | Except.ok (Json.obj kvs) =>
             pyStr ((dictGet kvs "error").getD (Json.str "Unknown error"))
         | _ => resp.text)) := by
  simp only [_make_request, h]
  rw [if_neg (by omega : ¬(200 ≤ resp.status ∧ resp.status ≤ 299))]
  unfold httpErrorDetail
  cases hj : resp.jsonBody with
  | ok j => cases j <;> rfl
  | error msg => rfl

/-- A backend answering every request with the spec scenario response:
404 with body containing an `error` field reading "not found". -/
def b404err : Backend :=
  fun _ => HttpOutcome.response
    ⟨404, Except.ok (Json.obj [("error", Json.str "not found")]),
     "\x7b\"error\": \"not found\"\x7d"⟩

/-- Witness for the amended C6 at the spec scenario: a 404 with body
containing `error: not found` normalizes to "HTTP 404: not found". -/
theorem backend_error_detail_witness :
    (_make_request (serverInit "http://localhost:8080" none) b404err "GET"
        "/api/v1/bugs/x" none none none).1 =
      Except.error "HTTP 404: not found" := by
  have h := backend_error_detail (serverInit "http://localhost:8080" none)
    b404err "GET" "/api/v1/bugs/x" none none none
    ⟨404, Except.ok (Json.obj [("error", Json.str "not found")]),
     "\x7b\"error\": \"not found\"\x7d"⟩
    rfl (by decide) (by decide)
  exact h.trans (by rfl)

/-- C8: a 2xx response whose body decodes is returned verbatim by the
forwarder, and a successful tool execution is delivered to the protocol
caller as a single text payload holding the pretty-printed JSON of exactly
that value. -/
theorem success_passthrough :
    (∀ (st : ServerState) (b : Backend) (m ep : String) (d p : Option ArgMap)
        (t : Option String) (resp : HttpResponse) (j : Json),
      b (builtRequest st m ep d p t) = HttpOutcome.response resp →
      200 ≤ resp.status → resp.status ≤ 299 →
      resp.jsonBody = Except.ok j →
      (_make_request st b m ep d p t).1 = Except.ok j) ∧
    (∀ (st : ServerState) (b : Backend) (name : String)
        (arguments : Option ArgMap) (r : Json),
      (_execute_tool st b name (pyOrEmpty arguments)).1 = Except.ok r →
      (handle_call_tool st b name arguments).1 = [⟨"text", json_dumps r⟩]) := by
  constructor
  · intro st b m ep d p t resp j h h1 h2 hj
    simp only [_make_request, h]
    rw [if_pos ⟨h1, h2⟩, hj]
  · intro st b name arguments r h
    unfold handle_call_tool
    rcases hx : _execute_tool st b name (pyOrEmpty arguments) with ⟨res, st2⟩
    rw [hx] at h
    simp only at h
    rw [h]

/-- Witness for C8: on a backend answering 200 with an empty JSON object,
`get_user_profile` delivers one text payload of the pretty-printed object. -/
theorem success_passthrough_witness :
    (handle_call_tool (serverInit "http://localhost:8080" none) demoBackend
        "get_user_profile" none).1 = [⟨"text", json_dumps (Json.obj [])⟩] :=
  success_passthrough.2 (serverInit "http://localhost:8080" none) demoBackend
    "get_user_profile" none (Json.obj []) rfl

/-- Counterexample to C4: the DELETE issued by `remove_team_member`
attaches a JSON body carrying the `user_id` field. -/
theorem delete_with_body_counterexample :
    ((_execute_tool (serverInit "http://localhost:8080" none) demoBackend
        "remove_team_member"
        [("company_id", Json.str "c1"), ("user_id", Json.str "u1")]).2).trace.map
      (fun r => (r.method, r.jsonBody)) =
      [("DELETE", some [("user_id", Json.str "u1")])] := rfl

/-- C4 amended: for every tool whose recipe uses GET, the outbound request
never attaches a JSON body; DELETE recipes may attach one
(`remove_team_member` routes its `user_id` payload through the body). -/
theorem get_never_has_body (st : ServerState) (b : Backend) (name : String)
    (args : ArgMap) (req : HttpRequest)
    (h : (_execute_tool st b name args).2.trace = st.trace ++ [req])
    (hm : req.method = "GET") : req.jsonBody = none := by
  rcases execute_tool_cases st b name args with he | ⟨r, he, -, hGD⟩
  · rw [he] at h
    have hl := congrArg List.length h
    simp at hl
  · rw [he] at h
    have h2 : st.trace ++ [r] = st.trace ++ [req] := h
    have h3 : r = req := by simpa using List.append_cancel_left h2
    subst h3
    exact hGD hm

/-- Witness for the amended C4: the GET request that `get_user_profile`
issues carries no JSON body. -/
theorem get_never_has_body_witness :
    (builtRequest (serverInit "http://localhost:8080" none) "GET"
      "/api/v1/auth/profile" none none none).jsonBody = none :=
  get_never_has_body (serverInit "http://localhost:8080" none) demoBackend
    "get_user_profile" [] _ rfl rfl

/-- A backend that answers every request with 200 and a JSON object
carrying a bearer token, as a login endpoint would. -/
def loginBackend : Backend :=
  fun _ => HttpOutcome.response
    ⟨200, Except.ok (Json.obj [("token", Json.str "tok123")]),
     "\x7b\"token\": \"tok123\"\x7d"⟩

/-- Counterexample to C1: a `login_user` call succeeds and returns the
token body, yet the request of the very next authenticated call
(`get_user_profile`, supplying no per-call token) carries no Authorization
header at all — no session bearer token was stored. -/
theorem login_no_session_token_counterexample :
    (_execute_tool (serverInit "http://localhost:8080" none) loginBackend
        "login_user"
        [("email", Json.str "user@example.com"), ("password", Json.str "pw")]).1 =
      Except.ok (Json.obj [("token", Json.str "tok123")]) ∧
    (((_execute_tool
        ((_execute_tool (serverInit "http://localhost:8080" none) loginBackend
            "login_user"
            [("email", Json.str "user@example.com"),
             ("password", Json.str "pw")]).2)
        loginBackend "get_user_profile" []).2).trace.map
      (fun r => lookupHeader r.headers "Authorization")) = [none, none] :=
  ⟨rfl, rfl⟩

/-- C1 amended: no session bearer token exists. Executing any tool leaves
the stored credentials unchanged, and — since no call site supplies a
per-call token — every request a tool execution issues carries no
Authorization header; it carries X-API-Key exactly when the static API key
is truthy. -/
theorem no_bearer_ever (st : ServerState) (b : Backend) (name : String)
    (args : ArgMap) :
    ((_execute_tool st b name args).2.base_url = st.base_url ∧
     (_execute_tool st b name args).2.api_key = st.api_key) ∧
    (∀ req, req ∈ (_execute_tool st b name args).2.trace → req ∉ st.trace →
      lookupHeader req.headers "Authorization" = none ∧
      lookupHeader req.headers "X-API-Key" =
        (if optTruthy st.api_key then some (st.api_key.getD "") else none)) := by
  rcases execute_tool_cases st b name args with he | ⟨r, he, hh, -⟩
  · rw [he]
    exact ⟨⟨rfl, rfl⟩, fun req hin hnin => absurd hin hnin⟩
  · rw [he]
    refine ⟨⟨rfl, rfl⟩, ?_⟩
    intro req hin hnin
    simp only [List.mem_append, List.mem_singleton] at hin
    rcases hin with hin | hin
    · exact absurd hin hnin
    · subst hin
      rw [hh]
      exact resolveHeaders_none_lookups st.api_key

/-- Witness for the amended C1: even with a static API key configured, the
request issued by `get_user_profile` has no Authorization header. -/
theorem no_bearer_ever_witness :
    lookupHeader (builtRequest (serverInit "http://localhost:8080" (some "k1"))
      "GET" "/api/v1/auth/profile" none none none).headers "Authorization" =
      none := by
  refine ((no_bearer_ever (serverInit "http://localhost:8080" (some "k1"))
    demoBackend "get_user_profile" []).2 _ ?_ ?_).1
  · exact List.mem_singleton.mpr rfl
  · exact List.not_mem_nil _
